import Mathlib

/-!
Verification of the pagination / view-synchronization core of the
`leptos-todo` application (source files `src/components/todo.rs`,
`src/components/types.rs`, `src/server/todo.rs`) against its
natural-language specification.

The client and server code use Rust `u32` arithmetic; we embed `u32`
values as `Nat` below `2^32` and model the wrapping (release-mode)
semantics of `+` and `-` explicitly with `% 2^32`.  `saturating_sub` on
`u32` coincides with truncated `Nat` subtraction and is embedded as such.
-/

set_option autoImplicit false

namespace LeptosTodo

/-- `2^32`, the modulus of Rust `u32` arithmetic. -/
def u32Mod : Nat := 4294967296

/-- Wrapping reduction of a `Nat` into the `u32` range. -/
def u32wrap (n : Nat) : Nat := n % u32Mod

/-- Wrapping `u32` subtraction (release-mode semantics of `a - b`
for `a b < 2^32`; in a debug build the same expression panics when
`a < b`). -/
def u32sub (a b : Nat) : Nat := u32wrap (a + u32Mod - b)

/-! ## Pagination component (`src/components/todo.rs`, `Pagination`,
`PaginationControls`, lines 178-316) -/

/-- `const PER_PAGE: u32 = 10` (todo.rs:265). -/
def PER_PAGE : Nat := 10

/-- `const VISIBLE_PAGES: u32 = 5` (todo.rs:266). -/
def VISIBLE_PAGES : Nat := 5

/-- `let half_visible = VISIBLE_PAGES / 2` (todo.rs:286). -/
def half_visible : Nat := VISIBLE_PAGES / 2

/-- `total_pages` as computed by the `Pagination` component:
`(response.total + PER_PAGE - 1) / PER_PAGE` (todo.rs:283), with the
addition and subtraction wrapping in `u32`. -/
def pagination_total_pages (total : Nat) : Nat :=
  u32sub (u32wrap (total + PER_PAGE)) 1 / PER_PAGE

/-- `total_pages` as computed by the server function `get_paginated_todos`:
`(total + 10 - 1) / 10` (server/todo.rs:69), with wrapping `u32`
arithmetic. -/
def server_total_pages (total : Nat) : Nat :=
  u32sub (u32wrap (total + 10)) 1 / 10

/-- `start_page` of the visible window (todo.rs:288-296):
```
let start_page = if current > half_visible {
    if current + half_visible >= total_pages {
        total_pages.saturating_sub(VISIBLE_PAGES)
    } else {
        current.saturating_sub(half_visible)
    }
} else { 0 };
```
The comparison `current + half_visible >= total_pages` uses wrapping
`u32` addition; `saturating_sub` is truncated `Nat` subtraction. -/
def start_page (current total_pages : Nat) : Nat :=
  if half_visible < current then
    if total_pages ≤ u32wrap (current + half_visible) then
      total_pages - VISIBLE_PAGES
    else
      current - half_visible
  else 0

/-- `end_page = (start_page + VISIBLE_PAGES).min(total_pages)`
(todo.rs:298), with wrapping `u32` addition. -/
def end_page (current total_pages : Nat) : Nat :=
  min (u32wrap (start_page current total_pages + VISIBLE_PAGES)) total_pages

/-- `visible_pages = (start_page..end_page).collect::<Vec<_>>()`
(todo.rs:299): the list `[start_page, …, end_page - 1]`, empty when
`end_page ≤ start_page`. -/
def visible_pages (current total_pages : Nat) : List Nat :=
  List.range' (start_page current total_pages)
    (end_page current total_pages - start_page current total_pages)

/-- `ceil(total / 10)` as worded by the specification (exact
arithmetic). -/
def specCeilDiv10 (total : Nat) : Nat :=
  if total % 10 = 0 then total / 10 else total / 10 + 1

/-- Window start as worded by the specification: with `half = ⌊5/2⌋ = 2`,
the window starts at 0 if `current_page ≤ half`; otherwise at
`max(0, total_pages − 5)` if `current_page + half ≥ total_pages`
(exact arithmetic); otherwise at `current_page − half`. -/
def specWindowStart (current total_pages : Nat) : Nat :=
  if current ≤ 2 then 0
  else if total_pages ≤ current + 2 then total_pages - 5
  else current - 2

/-- Window end as worded by the specification:
`min(start + 5, total_pages)`. -/
def specWindowEnd (current total_pages : Nat) : Nat :=
  min (specWindowStart current total_pages + 5) total_pages

/-- The window as worded by the specification: exactly the contiguous
range of page indices `[start, end)`. -/
def specWindow (current total_pages : Nat) : List Nat :=
  List.range' (specWindowStart current total_pages)
    (specWindowEnd current total_pages - specWindowStart current total_pages)

/-! ### Navigation and ellipsis tests (`PaginationControls`, todo.rs:178-246) -/

/-- Target page of `go_to_last`: `total_pages - 1` in wrapping `u32`
arithmetic (todo.rs:204-206). -/
def go_to_last_target (total_pages : Nat) : Nat := u32sub total_pages 1

/-- The First and Previous buttons' `disabled` predicate:
`current_page() == 0` (todo.rs:216-217). -/
def first_prev_disabled (current : Nat) : Bool := current == 0

/-- The Next and Last buttons' `disabled` predicate:
`current_page() + 1 >= total_pages` (todo.rs:243-244), with wrapping
`u32` addition. -/
def next_last_disabled (current total_pages : Nat) : Bool :=
  total_pages ≤ u32wrap (current + 1)

/-- `show_start_ellipsis`: `pages.first().copied().unwrap_or(0) > 0`
(todo.rs:208-209). -/
def show_start_ellipsis (pages : List Nat) : Bool :=
  0 < pages.headD 0

/-- `show_end_ellipsis`:
`pages.last().copied().unwrap_or(0) < total_pages - 1` (todo.rs:211-212),
where `total_pages - 1` is wrapping `u32` subtraction. -/
def show_end_ellipsis (pages : List Nat) (total_pages : Nat) : Bool :=
  (pages.getLast?.getD 0) < u32sub total_pages 1

/-! ## Due-date parsing (`src/server/todo.rs`, lines 90-99 and 152-161)

`add_todo` and `update_todo` contain the same inline block:
```
let today = chrono::offset::Local::now().date_naive();
let (year, month, day) = {
    let ymd: Vec<&str> = due_date.split("-").collect();
    (
        ymd[0].parse::<i32>().unwrap_or(today.year()),
        ymd[1].parse::<u32>().unwrap_or(today.month()),
        ymd[2].parse::<u32>().unwrap_or(today.day()),
    )
};
let pg_date = chrono::NaiveDate::from_ymd_opt(year, month, day).unwrap_or(today);
```
Strings are embedded as `List Char` for the character-level operations;
`today` is passed in as a parameter (it is ambient clock input).  The
indexings `ymd[1]` / `ymd[2]` panic when the split yields fewer than
three components; the whole block is therefore embedded as an
`Option`-returning function, `none` marking the panic. -/

/-- A calendar date as produced by `chrono::NaiveDate::from_ymd_opt`. -/
structure Date where
  year : Int
  month : Nat
  day : Nat
deriving DecidableEq

/-- Rust `str::split("-")`: splits a character list at every `'-'`,
keeping empty components (the split of the empty string is `[[]]`). -/
def splitDash : List Char → List (List Char)
  | [] => [[]]
  | c :: cs =>
    if c = '-' then [] :: splitDash cs
    else
      match splitDash cs with
      | [] => [[c]]
      | p :: ps => (c :: p) :: ps

/-- The numeric value of a string of ASCII digits, `none` if the list is
empty or contains a non-digit. -/
def digitsToNat? (cs : List Char) : Option Nat :=
  match cs with
  | [] => none
  | _ => cs.foldl
      (fun acc c => acc.bind fun n =>
        if c.isDigit then some (n * 10 + (c.toNat - 48)) else none)
      (some 0)

/-- Rust `str::parse::<i32>()`: an optional sign followed by one or more
digits, with the value in the `i32` range (an overflow during parsing
in Rust corresponds exactly to the final value exceeding the range,
since digit accumulation is monotone). -/
def parseI32? (cs : List Char) : Option Int :=
  match cs with
  | '+' :: rest =>
    (digitsToNat? rest).bind fun n =>
      if n ≤ 2147483647 then some (n : Int) else none
  | '-' :: rest =>
    (digitsToNat? rest).bind fun n =>
      if n ≤ 2147483648 then some (-(n : Int)) else none
  | _ =>
    (digitsToNat? cs).bind fun n =>
      if n ≤ 2147483647 then some (n : Int) else none

/-- Rust `str::parse::<u32>()`: an optional `'+'` followed by one or
more digits, with the value in the `u32` range. -/
def parseU32? (cs : List Char) : Option Nat :=
  match cs with
  | '+' :: rest =>
    (digitsToNat? rest).bind fun n =>
      if n ≤ 4294967295 then some n else none
  | _ =>
    (digitsToNat? cs).bind fun n =>
      if n ≤ 4294967295 then some n else none

/-- Gregorian leap-year rule, as used by `chrono` (proleptic). -/
def isLeapYear (y : Int) : Bool :=
  y % 4 == 0 && (y % 100 != 0 || y % 400 == 0)

/-- Days in a month of the proleptic Gregorian calendar
(0 for an out-of-range month index). -/
def daysInMonth (y : Int) (m : Nat) : Nat :=
  match m with
  | 1 => 31 | 2 => if isLeapYear y then 29 else 28
  | 3 => 31 | 4 => 30 | 5 => 31 | 6 => 30 | 7 => 31
  | 8 => 31 | 9 => 30 | 10 => 31 | 11 => 30 | 12 => 31
  | _ => 0

/-- `chrono`'s minimum representable year (`i32::MIN >> 13`). -/
def chronoMinYear : Int := -262144

/-- `chrono`'s maximum representable year (`i32::MAX >> 13`). -/
def chronoMaxYear : Int := 262143

/-- `chrono::NaiveDate::from_ymd_opt`: `some` exactly on in-range,
calendar-valid `(year, month, day)` triples. -/
def from_ymd_opt (y : Int) (m d : Nat) : Option Date :=
  if chronoMinYear ≤ y ∧ y ≤ chronoMaxYear ∧ 1 ≤ m ∧ m ≤ 12 ∧
      1 ≤ d ∧ d ≤ daysInMonth y m then
    some ⟨y, m, d⟩
  else none

/-- The `pg_date` computation shared by `add_todo` (server/todo.rs:90-99)
and `update_todo` (server/todo.rs:152-161).  Returns `none` when
`ymd[1]` or `ymd[2]` would panic (fewer than three `-`-separated
components). -/
def computePgDate (due_date : String) (today : Date) : Option Date :=
  match splitDash due_date.toList with
  | y0 :: m1 :: d2 :: _ =>
    some ((from_ymd_opt
      ((parseI32? y0).getD today.year)
      ((parseU32? m1).getD today.month)
      ((parseU32? d2).getD today.day)).getD today)
  | _ => none

/-- The fallback date described by the specification sentence (spec §6,
"invalid date components fall back to the current date
component-wise"): each of the year, month, day components that fails to
parse is replaced by the corresponding component of today's date, and
if the resulting triple forms no valid calendar date, today's date is
used as a whole. -/
def specFallbackDate (due_date : String) (today : Date) : Date :=
  let ymd := splitDash due_date.toList
  let year := (parseI32? (ymd.getD 0 [])).getD today.year
  let month := (parseU32? (ymd.getD 1 [])).getD today.month
  let day := (parseU32? (ymd.getD 2 [])).getD today.day
  (from_ymd_opt year month day).getD today

/-! ## Record store and server mutations (`src/server/todo.rs`)

The relational table `todos` is embedded as a list of rows; the SQL
statements the mutations execute are embedded as the corresponding list
transformations.  A server function's outcome is `ok`, an `err` (a
`ServerFnError::Args` validation error), or `panicked` (an index
out of bounds in the date block). -/

/-- One row of the `todos` table. -/
structure TodoRow where
  id : Int
  title : String
  description : String
  completed : Bool
  due_date : Date
deriving DecidableEq

/-- Outcome of a server function run, paired with the resulting store
state by the `*_run` embeddings. -/
inductive ServerOutcome where
  | ok
  | err (msg : String)
  | panicked
deriving DecidableEq

/-- `INSERT INTO todos(title, description, due_date) VALUES($1, $2, $3)`
(server/todo.rs:101): appends a fresh row with a store-assigned id and
`completed` defaulted to `false`. -/
def sqlInsertTodo (st : List TodoRow) (newId : Int) (title description : String)
    (d : Date) : List TodoRow :=
  st ++ [⟨newId, title, description, false, d⟩]

/-- `UPDATE todos SET title = $1, description = $2, due_date = $3 WHERE id = $4`
(server/todo.rs:163). -/
def sqlUpdateTodo (st : List TodoRow) (id : Int) (title description : String)
    (d : Date) : List TodoRow :=
  st.map fun r =>
    if r.id = id then { r with title := title, description := description, due_date := d }
    else r

/-- `add_todo` (server/todo.rs:73-106): no validation; computes
`pg_date` (panicking on malformed `due_date`) and inserts.  Returns the
outcome and the resulting store. -/
def add_todo_run (st : List TodoRow) (newId : Int)
    (title description due_date : String) (today : Date) :
    ServerOutcome × List TodoRow :=
  match computePgDate due_date today with
  | none => (.panicked, st)
  | some d => (.ok, sqlInsertTodo st newId title description d)

/-- `update_todo` (server/todo.rs:126-168): rejects empty `title` and
empty `due_date` with `ServerFnError::Args` before any connection is
opened, then computes `pg_date` and executes the UPDATE. -/
def update_todo_run (st : List TodoRow) (id : Int)
    (title description due_date : String) (today : Date) :
    ServerOutcome × List TodoRow :=
  if title = "" then (.err "title cannot be empty", st)
  else if due_date = "" then (.err "due_date cannot be empty", st)
  else
    match computePgDate due_date today with
    | none => (.panicked, st)
    | some d => (.ok, sqlUpdateTodo st id title description d)

/-! ## Notification channel (`src/components/types.rs`,
`src/components/todo.rs` lines 55-105)

`TodoList` registers one `create_effect` per mutation action's value
signal for the `add`, `update` and `delete` actions (todo.rs:65-105);
no effect is registered for the `complete` action.  Each effect runs
when its action settles. -/

/-- `NotificationType` (types.rs:1-7). -/
inductive NotificationType where
  | successAdd
  | successUpdate
  | successDelete
  | error (msg : String)
deriving DecidableEq

/-- The four mutation kinds. -/
inductive MutationKind where
  | add
  | complete
  | update
  | delete
deriving DecidableEq

/-- The notification-relevant client state: the `show_notification`
signal, the `notification_type` signal (todo.rs:55-58), and whether the
settlement scheduled a `set_timeout(clear_notification, 1s)`. -/
structure NotificationSt where
  show_notification : Bool
  notification_type : Option NotificationType
  timeout_scheduled : Bool
deriving DecidableEq

/-- `clear_notification` (todo.rs:60-63): hides the notification and
clears its type. -/
def clear_notification (s : NotificationSt) : NotificationSt :=
  { s with show_notification := false, notification_type := none }

/-- The delay, in seconds, passed to `set_timeout` at every settlement
site (`Duration::from_secs(1)`, todo.rs:72,76,85,89,98,102). -/
def notification_delay_secs : Nat := 1

/-- The state transition performed by the `create_effect` handlers when
a mutation of kind `k` settles with result `r` (todo.rs:65-105).  On
success the effect sets `show_notification` to `true`, sets the matching
success type and schedules the clearing timeout; on error it sets the
`Error` type and schedules the timeout but leaves `show_notification`
unchanged; a `complete` settlement has no registered effect and changes
nothing. -/
def onSettle (k : MutationKind) (r : Except String Unit)
    (s : NotificationSt) : NotificationSt :=
  match k, r with
  | .add, .ok _ =>
    { show_notification := true, notification_type := some .successAdd,
      timeout_scheduled := true }
  | .add, .error e =>
    { s with notification_type := some (.error e), timeout_scheduled := true }
  | .update, .ok _ =>
    { show_notification := true, notification_type := some .successUpdate,
      timeout_scheduled := true }
  | .update, .error e =>
    { s with notification_type := some (.error e), timeout_scheduled := true }
  | .delete, .ok _ =>
    { show_notification := true, notification_type := some .successDelete,
      timeout_scheduled := true }
  | .delete, .error e =>
    { s with notification_type := some (.error e), timeout_scheduled := true }
  | .complete, _ => s

/-! ## Add form (`FormAddTodo`, todo.rs:341-383) -/

/-- The values of the three fields of the add form (`title`,
`description`, `due_date` inputs, todo.rs:357-365). -/
structure AddTodoInput where
  title : String
  description : String
  due_date : String
deriving DecidableEq

/-- Modelled from the spec: the browser's HTML constraint validation for
the `required` attributes declared on the `title` and `due_date` inputs
of `FormAddTodo` (todo.rs:357, 365) — the `ActionForm` submission (and
hence the `add_todo` dispatch) only happens when every `required` field
is non-empty; the `description` textarea is not `required`.  The
browser itself is an external collaborator, so this predicate follows
the spec's words: "empty values are rejected before reaching the
store". -/
def addFormSubmits (i : AddTodoInput) : Bool :=
  i.title ≠ "" && i.due_date ≠ ""

/-- One round of the add-form flow: if constraint validation passes, the
form dispatches `add_todo` and, on settlement, the add action's version
counter increments (success and error alike); otherwise nothing is
dispatched.  Returns (was `add_todo` invoked, store after, add version
after). -/
def addFormFlow (st : List TodoRow) (newId : Int) (i : AddTodoInput)
    (today : Date) (add_version : Nat) : Bool × List TodoRow × Nat :=
  if addFormSubmits i then
    match add_todo_run st newId i.title i.description i.due_date today with
    | (_, st') => (true, st', add_version + 1)
  else (false, st, add_version)

/-! ## Reactive sources (`TodoList` and `Search`, todo.rs:40-51 and
390-396) -/

/-- The signal environment a resource's source closure can read: the
four action version counters, the current page signal and the debounced
search query. -/
structure SignalEnv where
  add_version : Nat
  complete_version : Nat
  update_version : Nat
  delete_version : Nat
  current_page : Nat
  debounced_query : String
deriving DecidableEq

/-- A call to a server function, identified by function and arguments. -/
inductive ServerCall where
  | getPaginatedTodos (page : Nat)
  | searchTodo (query : String)
deriving DecidableEq

/-- The source closure of `refetch_resource` (todo.rs:41-49): the tuple
`(add version, complete version, update version, delete version,
current page)`. -/
def refetchSource (e : SignalEnv) : Nat × Nat × Nat × Nat × Nat :=
  (e.add_version, e.complete_version, e.update_version, e.delete_version,
    e.current_page)

/-- The fetcher closure of `refetch_resource` (todo.rs:50):
`|(_, _, _, _, page)| get_paginated_todos(page)`. -/
def refetchFetcher : Nat × Nat × Nat × Nat × Nat → ServerCall
  | (_, _, _, _, page) => .getPaginatedTodos page

/-- The source closure of the search resource (todo.rs:394):
`(debounced(), complete_action.version().get())`. -/
def searchSource (e : SignalEnv) : String × Nat :=
  (e.debounced_query, e.complete_version)

/-- The fetcher closure of the search resource (todo.rs:395):
`|(q, _)| search_todo(q)`. -/
def searchFetcher : String × Nat → ServerCall
  | (q, _) => .searchTodo q

/-! ## Inline edit draft (`FormUpdateTodo`, todo.rs:503-575) -/

/-- `UpdateForm` (types.rs:9-14): the per-record edit draft. -/
structure UpdateForm where
  title : String
  description : String
  due_date : String
deriving DecidableEq

/-- An input event on one of the three edit fields, carrying
`event_target_value(&ev)`. -/
inductive EditEvent where
  | titleInput (v : String)
  | descriptionInput (v : String)
  | dateInput (v : String)
deriving DecidableEq

/-- The `on:input` handlers of `FormUpdateTodo` (todo.rs:533-539,
544-545, 556-562): the title and due-date handlers only store a
non-empty value; the description handler stores unconditionally. -/
def applyEditEvent (s : UpdateForm) : EditEvent → UpdateForm
  | .titleInput v => if v ≠ "" then { s with title := v } else s
  | .descriptionInput v => { s with description := v }
  | .dateInput v => if v ≠ "" then { s with due_date := v } else s

/-- The draft state after a sequence of input events. -/
def applyEditEvents (s : UpdateForm) (es : List EditEvent) : UpdateForm :=
  es.foldl applyEditEvent s

/-- The `UpdateTodo` server-function arguments. -/
structure UpdateTodoArgs where
  id : Int
  title : String
  description : String
  due_date : String
deriving DecidableEq

/-- `on_submit` of `FormUpdateTodo` (todo.rs:516-524): dispatches
`UpdateTodo` with the current draft fields. -/
def on_submit_dispatch (id : Int) (s : UpdateForm) : UpdateTodoArgs :=
  ⟨id, s.title, s.description, s.due_date⟩

/-! ## Helper lemmas -/

/-- Below `2^32 - 2`, the wrapped `u32` computation of `start_page`
agrees with the specification's window-start formula. -/
theorem start_page_eq_specWindowStart (current total_pages : Nat)
    (h3 : current + 2 < 4294967296) :
    start_page current total_pages = specWindowStart current total_pages := by
  have hw : u32wrap (current + 2) = current + 2 := Nat.mod_eq_of_lt h3
  simp only [start_page, specWindowStart,
    show half_visible = 2 from rfl, show VISIBLE_PAGES = 5 from rfl, hw]
  repeat' split
  all_goals omega

/-- Below `2^32`, the wrapped `u32` computation of `end_page` agrees
with the specification's window-end formula. -/
theorem end_page_eq_specWindowEnd (current total_pages : Nat)
    (h2 : total_pages < 4294967296) (h3 : current + 2 < 4294967296) :
    end_page current total_pages = specWindowEnd current total_pages := by
  have hstart := start_page_eq_specWindowStart current total_pages h3
  have hlt : specWindowStart current total_pages + 5 < 4294967296 := by
    simp only [specWindowStart]
    split
    · omega
    · split <;> omega
  have hw : u32wrap (specWindowStart current total_pages + VISIBLE_PAGES) =
      specWindowStart current total_pages + 5 := by
    rw [show VISIBLE_PAGES = 5 from rfl]
    exact Nat.mod_eq_of_lt hlt
  rw [end_page, specWindowEnd, hstart, hw]

/-! ## Claims -/

/-- C1 (counterexample): the claimed window algorithm quantifies over
every `u32` `current_page`, but at `current_page = 4294967295` (with
`total_pages = 3`) the code's `u32` addition `current + half_visible`
wraps to `1`, the clamp branch is missed, and the computed window is
empty, while the claimed formula gives the window `[0, 1, 2]`. -/
theorem C1_counterexample :
    visible_pages 4294967295 3 ≠ specWindow 4294967295 3 ∧
    visible_pages 4294967295 3 = [] ∧
    specWindow 4294967295 3 = [0, 1, 2] := by decide

/-- C1 (amended): for every `total_pages ≥ 1` in the `u32` range and
every `current_page` with `current_page + 2 < 2^32` (in particular every
page index that can actually be rendered), the `Pagination` component
computes the visible window exactly as the claim states: with
`half = ⌊5/2⌋ = 2`, the window starts at 0 if `current_page ≤ half`,
else at `max(0, total_pages − 5)` if `current_page + half ≥ total_pages`,
else at `current_page − half`, and ends at `min(start + 5, total_pages)`,
the window being the contiguous range `[start, end)`. -/
theorem C1_window_algorithm (current total_pages : Nat)
    (_h1 : 1 ≤ total_pages) (h2 : total_pages < 4294967296)
    (h3 : current + 2 < 4294967296) :
    visible_pages current total_pages = specWindow current total_pages := by
  rw [visible_pages, specWindow,
    start_page_eq_specWindowStart current total_pages h3,
    end_page_eq_specWindowEnd current total_pages h2 h3]

/-- C1 (witness): the amended window theorem applied at
`current_page = 7`, `total_pages = 20`. -/
theorem C1_window_algorithm_witness :
    1 ≤ 20 ∧ 20 < 4294967296 ∧ 7 + 2 < 4294967296 ∧
    visible_pages 7 20 = specWindow 7 20 :=
  ⟨by decide, by decide, by decide,
    C1_window_algorithm 7 20 (by decide) (by decide) (by decide)⟩

/-- C2 (counterexample): at `total = 4294967287`, the `u32` expression
`(total + 10 - 1) / 10` used both by `get_paginated_todos` and by the
`Pagination` component wraps and yields `0`, while
`ceil(total / 10) = 429496729`; in particular `total_pages = 0` with
`total ≠ 0`, falsifying both parts of the claim. -/
theorem C2_counterexample :
    server_total_pages 4294967287 = 0 ∧
    pagination_total_pages 4294967287 = 0 ∧
    specCeilDiv10 4294967287 = 429496729 ∧
    (4294967287 : Nat) ≠ 0 := by decide

/-- C2 (amended): for every `total ≤ 2^32 − 10`, the `total_pages`
computed by `get_paginated_todos` and by the `Pagination` component both
equal `ceil(total / 10)`, and each is `0` exactly when `total = 0`. -/
theorem C2_total_pages (total : Nat) (h : total ≤ 4294967286) :
    server_total_pages total = specCeilDiv10 total ∧
    pagination_total_pages total = specCeilDiv10 total ∧
    (server_total_pages total = 0 ↔ total = 0) ∧
    (pagination_total_pages total = 0 ↔ total = 0) := by
  have hkey : u32sub (u32wrap (total + 10)) 1 = total + 9 := by
    unfold u32sub u32wrap u32Mod
    rcases Nat.lt_or_ge total 4294967286 with h' | h'
    · have e1 : (total + 10) % 4294967296 = total + 10 :=
        Nat.mod_eq_of_lt (by omega)
      rw [e1, show total + 10 + 4294967296 - 1 = total + 9 + 4294967296 by omega,
        Nat.add_mod_right]
      exact Nat.mod_eq_of_lt (by omega)
    · have e0 : total = 4294967286 := by omega
      subst e0
      decide
  have hserver : server_total_pages total = (total + 9) / 10 := by
    rw [server_total_pages, hkey]
  have hpag : pagination_total_pages total = (total + 9) / 10 := by
    rw [pagination_total_pages, show PER_PAGE = 10 from rfl, hkey]
  have hceil : (total + 9) / 10 = specCeilDiv10 total := by
    unfold specCeilDiv10
    split <;> omega
  exact ⟨by rw [hserver, hceil], by rw [hpag, hceil],
    by rw [hserver]; omega, by rw [hpag]; omega⟩

/-- C2 (witness): the amended total-pages theorem applied at
`total = 23`. -/
theorem C2_total_pages_witness :
    23 ≤ 4294967286 ∧
    (server_total_pages 23 = specCeilDiv10 23 ∧
     pagination_total_pages 23 = specCeilDiv10 23 ∧
     (server_total_pages 23 = 0 ↔ 23 = 0) ∧
     (pagination_total_pages 23 = 0 ↔ 23 = 0)) :=
  ⟨by decide, C2_total_pages 23 (by decide)⟩

/-- C3 (code bug, evaluated at the failing input): with `total_pages = 0`
(empty store, `current_page = 0`) the window is indeed empty and all four
navigation buttons are disabled, but the controller *does* underflow when
computing `total_pages - 1`: the `Last` target wraps to `4294967295`, and
the end-ellipsis test compares against the wrapped `total_pages - 1` and
returns `true`, rendering a spurious trailing ellipsis (in a debug build
the same subtraction panics). -/
theorem C3_empty_store_underflow :
    visible_pages 0 0 = [] ∧
    first_prev_disabled 0 = true ∧
    next_last_disabled 0 0 = true ∧
    go_to_last_target 0 = 4294967295 ∧
    show_end_ellipsis (visible_pages 0 0) 0 = true := by decide

/-- C4: an Add dispatch with empty title (and non-empty due date) is
rejected by the client boundary's required-field validation: `add_todo`
is not invoked, the store is unchanged, and the add version counter is
not incremented. -/
theorem C4_add_empty_title_rejected (st : List TodoRow) (newId : Int)
    (description due_date : String) (today : Date) (v : Nat)
    (_hdd : due_date ≠ "") :
    addFormFlow st newId ⟨"", description, due_date⟩ today v = (false, st, v) := by
  simp [addFormFlow, addFormSubmits]

/-- C4 (witness): the rejection theorem applied at a concrete Add input
with empty title and due date `"2024-01-01"`. -/
theorem C4_add_empty_title_rejected_witness :
    ("2024-01-01" : String) ≠ "" ∧
    addFormFlow [] 1 ⟨"", "buy milk", "2024-01-01"⟩ ⟨2026, 10, 12⟩ 0 =
      (false, [], 0) :=
  ⟨by decide,
    C4_add_empty_title_rejected [] 1 "buy milk" "2024-01-01" ⟨2026, 10, 12⟩ 0
      (by decide)⟩

/-- C5 (counterexample): the claim fails on the code in two ways — a
settling `Complete` mutation emits no notification update at all (no
effect is registered for `complete_action`), and an error settlement
sets the `Error` type but never sets `show_notification` to `true`, so
from the initial state the notification stays invisible. -/
theorem C5_counterexample :
    onSettle .complete (.ok ()) ⟨false, none, false⟩ = ⟨false, none, false⟩ ∧
    (onSettle .complete (.ok ()) ⟨false, none, false⟩).show_notification = false ∧
    (onSettle .add (.error "db error") ⟨false, none, false⟩).show_notification
      = false := by decide

/-- C5 (amended): only the Add, Update and Delete mutations emit
notification updates.  A success settlement of those three sets
`show_notification = true` with the matching success kind and schedules
the fixed 1-second clearing timeout; an error settlement sets the
`Error` kind carrying the underlying message and schedules the timeout
but leaves visibility unchanged; a Complete settlement changes nothing.
The scheduled `clear_notification` hides the notification and clears
its kind. -/
theorem C5_notification_settlement (s : NotificationSt) (e : String)
    (r : Except String Unit) :
    onSettle .add (.ok ()) s = ⟨true, some .successAdd, true⟩ ∧
    onSettle .update (.ok ()) s = ⟨true, some .successUpdate, true⟩ ∧
    onSettle .delete (.ok ()) s = ⟨true, some .successDelete, true⟩ ∧
    onSettle .add (.error e) s = ⟨s.show_notification, some (.error e), true⟩ ∧
    onSettle .update (.error e) s = ⟨s.show_notification, some (.error e), true⟩ ∧
    onSettle .delete (.error e) s = ⟨s.show_notification, some (.error e), true⟩ ∧
    onSettle .complete r s = s ∧
    clear_notification s = ⟨false, none, s.timeout_scheduled⟩ ∧
    notification_delay_secs = 1 := by
  refine ⟨rfl, rfl, rfl, rfl, rfl, rfl, ?_, rfl, rfl⟩
  cases r <;> rfl

/-- C6 (counterexample): the claim quantifies over every `due_date`
string, but on `"2024"` (fewer than three `-`-separated components) the
shared date block of `add_todo`/`update_todo` panics indexing `ymd[1]`
instead of falling back component-wise — the claimed fallback would be
`2024-10-12` given today `2026-10-12`. -/
theorem C6_counterexample :
    computePgDate "2024" ⟨2026, 10, 12⟩ = none ∧
    specFallbackDate "2024" ⟨2026, 10, 12⟩ = ⟨2024, 10, 12⟩ := by decide

/-- C6 (amended): for every `due_date` string that splits on `"-"` into
at least three components, the date used by `add_todo` and `update_todo`
is exactly the claimed component-wise fallback: each of year, month, day
that fails to parse is replaced by today's corresponding component, and
an invalid resulting triple is replaced by today's date as a whole. -/
theorem C6_date_fallback (due_date : String) (today : Date)
    (h : 3 ≤ (splitDash due_date.toList).length) :
    computePgDate due_date today = some (specFallbackDate due_date today) := by
  simp only [computePgDate, specFallbackDate]
  set ymd := splitDash due_date.toList with hymd
  clear_value ymd
  match ymd, h with
  | a :: b :: c :: rest, _ => rfl

/-- C6 (witness): the amended fallback theorem applied at
`due_date = "abcd-13-05"`, today `2026-10-12` (year fails to parse and
falls back to 2026; month 13 makes the triple invalid, so the whole
date falls back to today). -/
theorem C6_date_fallback_witness :
    3 ≤ (splitDash ("abcd-13-05" : String).toList).length ∧
    computePgDate "abcd-13-05" ⟨2026, 10, 12⟩ =
      some (specFallbackDate "abcd-13-05" ⟨2026, 10, 12⟩) :=
  ⟨by decide, C6_date_fallback "abcd-13-05" ⟨2026, 10, 12⟩ (by decide)⟩

/-- C7: any two signal environments that agree on `current_page` cause
the identical fetch `get_paginated_todos(current_page)` — the four
version counters never influence which call is made or its argument. -/
theorem C7_versions_never_data (e1 e2 : SignalEnv)
    (h : e1.current_page = e2.current_page) :
    refetchFetcher (refetchSource e1) = refetchFetcher (refetchSource e2) ∧
    refetchFetcher (refetchSource e1) = .getPaginatedTodos e1.current_page :=
  ⟨by simp [refetchFetcher, refetchSource, h], rfl⟩

/-- C7 (witness): two environments with entirely different version
counters but the same page produce the same fetch. -/
theorem C7_versions_never_data_witness :
    (⟨1, 2, 3, 4, 7, "a"⟩ : SignalEnv).current_page =
      (⟨10, 20, 30, 40, 7, "b"⟩ : SignalEnv).current_page ∧
    (refetchFetcher (refetchSource ⟨1, 2, 3, 4, 7, "a"⟩) =
        refetchFetcher (refetchSource ⟨10, 20, 30, 40, 7, "b"⟩) ∧
      refetchFetcher (refetchSource ⟨1, 2, 3, 4, 7, "a"⟩) =
        .getPaginatedTodos (⟨1, 2, 3, 4, 7, "a"⟩ : SignalEnv).current_page) :=
  ⟨by decide, C7_versions_never_data ⟨1, 2, 3, 4, 7, "a"⟩ ⟨10, 20, 30, 40, 7, "b"⟩
    (by decide)⟩

/-- C8: the search resource's input is exactly the pair
`(debounced query, complete version)`: the source tuple changes iff the
debounced query or the Complete counter changes (so Add/Update/Delete
counter changes never re-trigger it), and the fetch issued is
`search_todo(debounced query)`. -/
theorem C8_search_input (e1 e2 : SignalEnv) :
    (searchSource e1 = searchSource e2 ↔
      (e1.debounced_query = e2.debounced_query ∧
        e1.complete_version = e2.complete_version)) ∧
    searchFetcher (searchSource e1) = .searchTodo e1.debounced_query :=
  ⟨by simp [searchSource], rfl⟩

/-- C9: `update_todo` with empty title or empty due date returns a
`ServerFnError::Args` validation error before any connection is opened,
and the store is unchanged. -/
theorem C9_update_validation (st : List TodoRow) (id : Int)
    (title description due_date : String) (today : Date)
    (h : title = "" ∨ due_date = "") :
    (update_todo_run st id title description due_date today).2 = st ∧
    ∃ msg, (update_todo_run st id title description due_date today).1
      = .err msg := by
  unfold update_todo_run
  rcases h with h | h
  · subst h
    exact ⟨rfl, "title cannot be empty", rfl⟩
  · by_cases ht : title = ""
    · subst ht
      exact ⟨rfl, "title cannot be empty", rfl⟩
    · rw [if_neg ht, if_pos h]
      exact ⟨rfl, "due_date cannot be empty", rfl⟩

/-- C9 (witness): the validation theorem applied to a one-row store with
an empty title. -/
theorem C9_update_validation_witness :
    (("" : String) = "" ∨ ("2024-01-05" : String) = "") ∧
    ((update_todo_run [⟨1, "t", "d", false, ⟨2024, 1, 5⟩⟩] 1 "" "d"
        "2024-01-05" ⟨2026, 10, 12⟩).2 = [⟨1, "t", "d", false, ⟨2024, 1, 5⟩⟩] ∧
      ∃ msg, (update_todo_run [⟨1, "t", "d", false, ⟨2024, 1, 5⟩⟩] 1 "" "d"
        "2024-01-05" ⟨2026, 10, 12⟩).1 = .err msg) :=
  ⟨Or.inl rfl,
    C9_update_validation [⟨1, "t", "d", false, ⟨2024, 1, 5⟩⟩] 1 "" "d"
      "2024-01-05" ⟨2026, 10, 12⟩ (Or.inl rfl)⟩

/-- C10: for every sequence of input events on an open edit panel, a
draft whose title and due date start non-empty keeps both non-empty (an
empty input value leaves the previous value in place), and the `Update`
dispatched on save therefore carries non-empty title and due date. -/
theorem C10_draft_never_emptied (s : UpdateForm) (es : List EditEvent)
    (id : Int) (ht : s.title ≠ "") (hd : s.due_date ≠ "") :
    (applyEditEvents s es).title ≠ "" ∧
    (applyEditEvents s es).due_date ≠ "" ∧
    (on_submit_dispatch id (applyEditEvents s es)).title ≠ "" ∧
    (on_submit_dispatch id (applyEditEvents s es)).due_date ≠ "" := by
  have main : ∀ (l : List EditEvent) (t : UpdateForm), t.title ≠ "" →
      t.due_date ≠ "" →
      (applyEditEvents t l).title ≠ "" ∧ (applyEditEvents t l).due_date ≠ "" := by
    intro l
    induction l with
    | nil => exact fun t ht hd => ⟨ht, hd⟩
    | cons e tl ih =>
      intro t ht hd
      have step : (applyEditEvent t e).title ≠ "" ∧
          (applyEditEvent t e).due_date ≠ "" := by
        cases e with
        | titleInput v =>
          by_cases hv : v = ""
          · simp only [applyEditEvent, if_neg (fun hn : v ≠ "" => hn hv)]
            exact ⟨ht, hd⟩
          · simp only [applyEditEvent, if_pos hv]
            exact ⟨hv, hd⟩
        | descriptionInput v => exact ⟨ht, hd⟩
        | dateInput v =>
          by_cases hv : v = ""
          · simp only [applyEditEvent, if_neg (fun hn : v ≠ "" => hn hv)]
            exact ⟨ht, hd⟩
          · simp only [applyEditEvent, if_pos hv]
            exact ⟨ht, hv⟩
      exact ih (applyEditEvent t e) step.1 step.2
  exact ⟨(main es s ht hd).1, (main es s ht hd).2,
    (main es s ht hd).1, (main es s ht hd).2⟩

/-- C10 (witness): the draft-invariant theorem applied to a concrete
draft and an event sequence that tries to blank both fields. -/
theorem C10_draft_never_emptied_witness :
    (⟨"buy milk", "", "2024-01-05"⟩ : UpdateForm).title ≠ "" ∧
    (⟨"buy milk", "", "2024-01-05"⟩ : UpdateForm).due_date ≠ "" ∧
    ((applyEditEvents ⟨"buy milk", "", "2024-01-05"⟩
        [.titleInput "", .dateInput "", .descriptionInput "x",
          .titleInput "buy bread"]).title ≠ "" ∧
      (applyEditEvents ⟨"buy milk", "", "2024-01-05"⟩
        [.titleInput "", .dateInput "", .descriptionInput "x",
          .titleInput "buy bread"]).due_date ≠ "" ∧
      (on_submit_dispatch 1 (applyEditEvents ⟨"buy milk", "", "2024-01-05"⟩
        [.titleInput "", .dateInput "", .descriptionInput "x",
          .titleInput "buy bread"])).title ≠ "" ∧
      (on_submit_dispatch 1 (applyEditEvents ⟨"buy milk", "", "2024-01-05"⟩
        [.titleInput "", .dateInput "", .descriptionInput "x",
          .titleInput "buy bread"])).due_date ≠ "") :=
  ⟨by decide, by decide,
    C10_draft_never_emptied ⟨"buy milk", "", "2024-01-05"⟩
      [.titleInput "", .dateInput "", .descriptionInput "x",
        .titleInput "buy bread"] 1 (by decide) (by decide)⟩
